import Mathlib

/-!
Shallow embedding of the geolore-tools resilient geocoding engine
(src/src/geocoding/amap.py, src/src/geocoding/validator.py,
src/src/processing/cleaner.py, src/src/extraction/llm_runner.py).

Conventions of the embedding:
* Python strings are Lean `String`; a missing / `None` string field that the
  source immediately coerces with `or ""` (or only ever tests for truthiness)
  is modelled as `""`.
* Python floats that the source only compares or tests for truthiness are
  modelled as `ℚ`; the transcendental `haversine_distance` (float `sin`, `cos`,
  `asin`, `sqrt`) is kept abstract as an explicit function parameter `dist`.
* The HTTP boundary (`AmapClient.place_search` / `AmapClient.geocode`,
  together with the JSON normalisation of the first hit) is an oracle: each
  call either raises or returns the list of already-normalised hits.
-/

/-- Python's substring containment `needle in hay` on lists of characters. -/
def containsSub (hay needle : List Char) : Bool :=
  if needle.isPrefixOf hay then true
  else
    match hay with
    | [] => false
    | _ :: t => containsSub t needle

/-- Python's `needle in hay` for strings. -/
def pyIn (needle hay : String) : Bool :=
  containsSub hay.data needle.data

/-- Python's `s.replace(pat, "")`, fuel-indexed so that it reduces in the
kernel: remove all (leftmost, non-overlapping) occurrences of `pat`.  Each
step consumes at least one character, so `fuel = s.length` is enough. -/
def replaceDropFuel (pat : List Char) : ℕ → List Char → List Char
  | 0, s => s
  | _ + 1, [] => []
  | fuel + 1, c :: rest =>
    if pat ≠ [] ∧ pat.isPrefixOf (c :: rest) then
      replaceDropFuel pat fuel (List.drop pat.length (c :: rest))
    else
      c :: replaceDropFuel pat fuel rest

/-- `s.replace(pat, "")` for strings. -/
def pyReplaceEmpty (s pat : String) : String :=
  ⟨replaceDropFuel pat.data s.data.length s.data⟩

/-- Python's `s.split(sep)` for a single-character separator, on lists of
characters (accumulator holds the current segment, reversed). -/
def splitOnCharAux (sep : Char) : List Char → List Char → List (List Char)
  | [], acc => [acc.reverse]
  | c :: rest, acc =>
    if c = sep then acc.reverse :: splitOnCharAux sep rest []
    else splitOnCharAux sep rest (c :: acc)

/-- Python's `s.strip()`: drop leading and trailing whitespace. -/
def pyStrip (l : List Char) : List Char :=
  ((l.dropWhile Char.isWhitespace).reverse.dropWhile Char.isWhitespace).reverse

/-- `split_address_levels` (amap.py lines 96-99): split on `"-"`, strip each
segment, drop empty segments. -/
def split_address_levels (address : String) : List String :=
  ((((splitOnCharAux '-' address.data []).map pyStrip).filter
      (fun p => p ≠ [])).map fun l => String.mk l)

/-- A normalised geocoding result (the fields that `validate_locality_match`,
`validate_coordinate_distance` and the resolver inspect).  `lat`/`lon` are
`none` when absent/unparsable; `display_name` and `locality` use `""` for an
absent value. -/
structure GeoResult where
  lat : Option ℚ
  lon : Option ℚ
  display_name : String
  locality : String
deriving DecidableEq, Repr

/-- Python truthiness of an optional numeric field: `not x` holds exactly for
`None` and `0`. -/
def optFalsy (x : Option ℚ) : Bool :=
  match x with
  | none => true
  | some v => v == 0

/-- `CITY_CENTERS` (amap.py lines 35-70): city name → reference coordinate. -/
def CITY_CENTERS : List (String × ℚ × ℚ) :=
  [ ("北京市", (39.9042, 116.4074)),
    ("上海市", (31.2304, 121.4737)),
    ("天津市", (39.1244, 117.1944)),
    ("重庆市", (29.5630, 106.5516)),
    ("杭州市", (30.2741, 120.1551)),
    ("南京市", (32.0603, 118.7969)),
    ("苏州市", (31.2989, 120.5853)),
    ("武汉市", (30.5928, 114.3055)),
    ("成都市", (30.5728, 104.0668)),
    ("西安市", (34.3416, 108.9398)),
    ("南平市", (26.6417, 118.1780)),
    ("福州市", (26.0745, 119.2965)),
    ("厦门市", (24.4798, 118.0894)),
    ("广州市", (23.1291, 113.2644)),
    ("深圳市", (22.5431, 114.0579)),
    ("长沙市", (28.2282, 112.9388)),
    ("郑州市", (34.7466, 113.6254)),
    ("济南市", (36.6512, 117.1209)),
    ("青岛市", (36.0671, 120.3826)),
    ("沈阳市", (41.8057, 123.4315)),
    ("大连市", (38.9140, 121.6147)),
    ("哈尔滨市", (45.8038, 126.5340)),
    ("长春市", (43.8868, 125.3245)),
    ("昆明市", (25.0406, 102.7129)),
    ("贵阳市", (26.6470, 106.6302)),
    ("兰州市", (36.0611, 103.8343)),
    ("银川市", (38.4681, 106.2731)),
    ("乌鲁木齐市", (43.8256, 87.6168)),
    ("拉萨市", (29.6470, 91.1145)),
    ("呼和浩特市", (40.8416, 111.7519)),
    ("南昌市", (28.6829, 115.8579)),
    ("合肥市", (31.8206, 117.2272)),
    ("太原市", (37.8706, 112.5489)),
    ("石家庄市", (38.0428, 114.5149)) ]

/-- `MAX_DISTANCE` (amap.py lines 73-78), in kilometres. -/
def MAX_DISTANCE_street : ℚ := 20
def MAX_DISTANCE_district : ℚ := 50
def MAX_DISTANCE_city : ℚ := 150
def MAX_DISTANCE_province : ℚ := 800

/-- `validate_locality_match` (amap.py lines 130-154).  The whole check is
guarded by `if result_locality:`. -/
def validate_locality_match (query_levels : List String) (result : GeoResult) :
    Bool :=
  let result_locality := result.locality
  let result_formatted := result.display_name
  let query_city := query_levels.getD 1 ""
  let query_district := query_levels.getD 2 ""
  if result_locality ≠ "" then
    if query_district ≠ "" ∧ ¬ pyIn query_district result_locality ∧
        ¬ pyIn query_district result_formatted then
      false
    else if query_city ≠ "" ∧ ¬ pyIn query_city result_formatted then
      let query_city_base :=
        pyReplaceEmpty (pyReplaceEmpty (pyReplaceEmpty query_city "市") "地区")
          "自治州"
      if query_city_base ≠ "" ∧ ¬ pyIn query_city_base result_formatted then
        false
      else
        true
    else
      true
  else
    true

/-- Threshold selection inside `validate_coordinate_distance`
(amap.py lines 177-184). -/
def distanceThreshold (numLevels : ℕ) : ℚ :=
  if numLevels ≥ 4 then MAX_DISTANCE_street
  else if numLevels ≥ 3 then MAX_DISTANCE_district
  else if numLevels ≥ 2 then MAX_DISTANCE_city
  else MAX_DISTANCE_province

/-- `validate_coordinate_distance` (amap.py lines 157-191).  `dist` stands for
the float `haversine_distance` of the source (arguments in the source order:
city centre latitude, longitude, result latitude, longitude). -/
def validate_coordinate_distance (dist : ℚ → ℚ → ℚ → ℚ → ℚ)
    (query_levels : List String) (result : GeoResult) : Bool :=
  if optFalsy result.lat ∨ optFalsy result.lon then true
  else
    match query_levels.get? 1 with
    | none => true
    | some query_city =>
      if query_city = "" then true
      else
        match List.lookup query_city CITY_CENTERS with
        | none => true
        | some (city_lat, city_lon) =>
          let d := dist city_lat city_lon (result.lat.getD 0) (result.lon.getD 0)
          if d > distanceThreshold query_levels.length then false else true

/-- The in-memory cache of the resolver: association list from cache key
(`"amap:" ++ query`) to a positive (`some r`) or negative (`none`) entry.
Lookup sees the most recent binding first, matching Python dict semantics. -/
abbrev Cache : Type := List (String × Option GeoResult)

/-- `cache[key] = value` (insertion shadows any earlier binding). -/
def cacheSet (c : Cache) (key : String) (v : Option GeoResult) : Cache :=
  (key, v) :: c

/-- `cache_key in cache` / `cache[cache_key]` combined. -/
def cacheGet (c : Cache) (key : String) : Option (Option GeoResult) :=
  List.lookup key c

/-- Outcome of one provider HTTP call: an exception, or the (possibly empty)
list of normalised hits. -/
inductive CallResult where
  | raise : CallResult
  | hits : List GeoResult → CallResult
deriving DecidableEq, Repr

/-- Oracle for `AmapClient`: the behaviour of the two rate-limited endpoints,
`place_search(query, city)` and `geocode(query, city)`, with the first hit
already normalised by `normalize_poi` / `normalize_geocode`. -/
structure AmapClient where
  place_search : String → String → CallResult
  geocode : String → String → CallResult

/-- Which endpoint a network call went to. -/
inductive Endpoint where
  | place : Endpoint
  | geo : Endpoint
deriving DecidableEq, Repr

/-- One observed network call: endpoint and query string. -/
abbrev NetCall : Type := Endpoint × String

/-- The `meta` dictionary of `geocode_with_fallback` (amap.py lines 350-354);
`none` models a `None` (or absent) value. -/
structure FallbackMeta where
  matchLevel : Option ℕ
  matchMethod : Option String
  validationPassed : Option Bool
deriving DecidableEq, Repr

/-- Return value of the resolver, extended with the final cache and the trace
of network calls issued (for call-counting properties). -/
structure ResolveOut where
  result : Option GeoResult
  meta : FallbackMeta
  cache : Cache
  calls : List NetCall
deriving DecidableEq, Repr

/-- Prepend a network call to the trace of a resolver continuation. -/
def logCall (c : NetCall) (s : ResolveOut) : ResolveOut :=
  { s with calls := c :: s.calls }

/-- The `for num_levels in range(len(levels), 0, -1)` loop of
`geocode_with_fallback` (amap.py lines 357-447), with `k` the current
`num_levels`.  `dist` stands for the source's float `haversine_distance`. -/
def fallbackLoop (dist : ℚ → ℚ → ℚ → ℚ → ℚ) (client : AmapClient)
    (levels : List String) (enable_validation : Bool) :
    ℕ → FallbackMeta → Cache → ResolveOut
  | 0, meta, cache => ⟨none, meta, cache, []⟩
  | k + 1, meta, cache =>
    let query_parts := levels.take (k + 1)
    let query := String.join query_parts
    let city := query_parts.headD ""
    let level_index := levels.length - (k + 1)
    let cache_key := "amap:" ++ query
    match cacheGet cache cache_key with
    | some (some cached) =>
      ⟨some cached, ⟨some level_index, some "cache", some true⟩, cache, []⟩
    | some none =>
      fallbackLoop dist client levels enable_validation k meta cache
    | none =>
      match client.place_search query city with
      | CallResult.raise =>
        logCall (Endpoint.place, query)
          (fallbackLoop dist client levels enable_validation k meta
            (cacheSet cache cache_key none))
      | CallResult.hits pois =>
        match pois with
        | result :: _ =>
          if enable_validation &&
              !(validate_locality_match levels result &&
                validate_coordinate_distance dist levels result) then
            logCall (Endpoint.place, query)
              (fallbackLoop dist client levels enable_validation k
                { meta with validationPassed := some false } cache)
          else
            ⟨some result, ⟨some level_index, some "amap_place", some true⟩,
              cacheSet cache cache_key (some result), [(Endpoint.place, query)]⟩
        | [] =>
          match client.geocode query city with
          | CallResult.raise =>
            logCall (Endpoint.place, query) (logCall (Endpoint.geo, query)
              (fallbackLoop dist client levels enable_validation k meta
                (cacheSet cache cache_key none)))
          | CallResult.hits geocodes =>
            match geocodes with
            | result :: _ =>
              if enable_validation &&
                  !(validate_locality_match levels result &&
                    validate_coordinate_distance dist levels result) then
                logCall (Endpoint.place, query) (logCall (Endpoint.geo, query)
                  (fallbackLoop dist client levels enable_validation k
                    { meta with validationPassed := some false } cache))
              else
                ⟨some result,
                  ⟨some level_index, some "amap_geocode", some true⟩,
                  cacheSet cache cache_key (some result),
                  [(Endpoint.place, query), (Endpoint.geo, query)]⟩
            | [] =>
              logCall (Endpoint.place, query) (logCall (Endpoint.geo, query)
                (fallbackLoop dist client levels enable_validation k meta
                  (cacheSet cache cache_key none)))

/-- `geocode_with_fallback` (amap.py lines 324-449). -/
def geocode_with_fallback (dist : ℚ → ℚ → ℚ → ℚ → ℚ) (client : AmapClient)
    (address : String) (enable_validation : Bool) (cache : Cache) :
    ResolveOut :=
  let levels := split_address_levels address
  if levels.isEmpty then ⟨none, ⟨none, none, none⟩, cache, []⟩
  else
    fallbackLoop dist client levels enable_validation levels.length
      ⟨none, none, none⟩ cache

/-- `load_done_batches` (cleaner.py lines 190-210).  The argument is the
progress log after line splitting and JSON parsing: `some i` stands for a
line that parses to an object whose `batchIndex` is the integer `i`; `none`
stands for a blank line, an unparseable line, or a record without an integer
`batchIndex` (all of which the source skips). -/
def load_done_batches (lines : List (Option ℤ)) : Finset ℤ :=
  (lines.filterMap id).toFinset

/-- The record produced for one work item by the `worker` coroutine of
`run_batches` (cleaner.py lines 281-321): skipped by resume, a success record
appended to the progress log, a failed record appended to the error log, or
nothing at all (when `retries` is 0 the attempt loop body never runs). -/
inductive BatchRecord (α : Type) where
  | skipped : BatchRecord α
  | success : α → BatchRecord α
  | failed : String → BatchRecord α
  | noAttempt : BatchRecord α
deriving DecidableEq, Repr

/-- The `for attempt in range(1, retries + 1)` retry loop of `worker`
(cleaner.py lines 288-321), recursing on the number of attempts remaining so
the loop counter `attempt` starts at 1; `f attempt` is the outcome of the
`attempt`-th try of the unit of work (`call_api` plus parsing).  The source's
`attempt >= retries` exit test is `remaining = 0` here. -/
def worker_attempts {α : Type} (f : ℕ → Except String α) :
    ℕ → ℕ → BatchRecord α
  | 0, _ => BatchRecord.noAttempt
  | remaining + 1, attempt =>
    match f attempt with
    | Except.ok a => BatchRecord.success a
    | Except.error e =>
      if remaining = 0 then BatchRecord.failed e
      else worker_attempts f remaining (attempt + 1)

/-- One full `worker` run without the resume guard: attempts start at 1. -/
def run_worker {α : Type} (f : ℕ → Except String α) (retries : ℕ) :
    BatchRecord α :=
  worker_attempts f retries 1

/-- The dispatch of `run_batches` (cleaner.py lines 281-325): one record per
batch index; an index in the resume done-set is skipped without invoking the
unit of work. -/
def run_batches_records {α : Type} (resume : Bool) (done : Finset ℤ)
    (f : ℕ → ℕ → Except String α) (retries total : ℕ) :
    List (BatchRecord α) :=
  (List.range total).map fun (i : ℕ) =>
    if resume && decide ((i : ℤ) ∈ done) then BatchRecord.skipped
    else run_worker (f i) retries

/-- The set of batch indices for which `worker` reaches the attempt loop,
i.e. is not skipped by the resume guard (cleaner.py lines 282-284). -/
def invoked_indices (resume : Bool) (done : Finset ℤ) (total : ℕ) :
    List ℕ :=
  (List.range total).filter fun (i : ℕ) =>
    !(resume && decide ((i : ℤ) ∈ done))

/-- One line of the prompts file as `run_extraction` (llm_runner.py lines
136-229) sees it: unparseable JSON (or any other per-line exception), or a
parsed item with `already` = "the output file already exists" and `llm` = the
truthy result of `call_llm` (`none` for `None` or a falsy value). -/
inductive LineParse (α : Type) where
  | invalid : LineParse α
  | item : Bool → Option α → LineParse α
deriving DecidableEq, Repr

/-- The summary dictionary returned by `run_extraction`
(llm_runner.py lines 223-229). -/
structure ExtractionSummary where
  total : ℕ
  success : ℕ
  skipped : ℕ
  failed : ℕ
deriving DecidableEq, Repr

/-- One iteration of the `for i, line in enumerate(lines)` loop of
`run_extraction` (llm_runner.py lines 172-221). -/
def extraction_step {α : Type} (skip_existing : Bool)
    (s : ExtractionSummary) (l : LineParse α) : ExtractionSummary :=
  match l with
  | LineParse.invalid => { s with failed := s.failed + 1 }
  | LineParse.item already llm =>
    if skip_existing && already then { s with skipped := s.skipped + 1 }
    else
      match llm with
      | some _ => { s with success := s.success + 1 }
      | none => { s with failed := s.failed + 1 }

/-- `run_extraction` (llm_runner.py lines 136-229): `total = len(lines)` is
fixed up front, the three counters start at 0 and each line bumps exactly
one of them. -/
def run_extraction_summary {α : Type} (skip_existing : Bool)
    (lines : List (LineParse α)) : ExtractionSummary :=
  lines.foldl (extraction_step skip_existing) ⟨lines.length, 0, 0, 0⟩

/-- Constant distance oracle, for concrete scenarios. -/
def constDist (d : ℚ) : ℚ → ℚ → ℚ → ℚ → ℚ := fun _ _ _ _ => d

/-- A candidate that fails validation for the two-level address `"A-B"`:
locality is non-empty, and neither `"B"` nor its stripped base occurs in the
display name. -/
def exRejected : GeoResult := ⟨none, none, "Y", "X"⟩

/-- A candidate that passes validation trivially (empty locality, no
coordinates). -/
def exAccepted : GeoResult := ⟨none, none, "", ""⟩

/-- Provider for the warm-cache scenario: the full query `"AB"` always
returns the rejected candidate, the one-level query `"A"` returns an
accepted one. -/
def c2Client : AmapClient :=
  ⟨fun q _ =>
      if q = "AB" then CallResult.hits [exRejected]
      else if q = "A" then CallResult.hits [exAccepted]
      else CallResult.hits [],
    fun _ _ => CallResult.hits []⟩

/-- Provider where the keyword search for `"AB"` yields only the rejected
candidate while the structured-address geocode for `"AB"` would yield an
accepted one; all other queries return no hits. -/
def c3Client : AmapClient :=
  ⟨fun q _ =>
      if q = "AB" then CallResult.hits [exRejected] else CallResult.hits [],
    fun q _ =>
      if q = "AB" then CallResult.hits [exAccepted] else CallResult.hits []⟩

/-- Provider whose keyword endpoint always raises (network failure). -/
def c4Client : AmapClient :=
  ⟨fun _ _ => CallResult.raise, fun _ _ => CallResult.hits []⟩

/-- Provider whose keyword endpoint returns zero hits and whose
structured-address geocode endpoint raises (network failure on the second
call of a level). -/
def c4GeoClient : AmapClient :=
  ⟨fun _ _ => CallResult.hits [], fun _ _ => CallResult.raise⟩

/-- The validated hit of the spec's end-to-end scenario for
`"浙江省-杭州市-上城区-孤山路25号-杭州博物馆"`. -/
def c5Hit : GeoResult :=
  ⟨some 30, some 120, "浙江省杭州市上城区孤山路25号杭州博物馆", "上城区"⟩

/-- Provider returning the scenario hit for the full five-level query. -/
def c5Client : AmapClient :=
  ⟨fun q _ =>
      if q = "浙江省杭州市上城区孤山路25号杭州博物馆" then
        CallResult.hits [c5Hit]
      else CallResult.hits [],
    fun _ _ => CallResult.hits []⟩

/-- Provider that never returns a hit. -/
def emptyClient : AmapClient :=
  ⟨fun _ _ => CallResult.hits [], fun _ _ => CallResult.hits []⟩

theorem cacheGet_set_eq_none {c : Cache} {k k' : String} {v : Option GeoResult}
    (h : cacheGet (cacheSet c k v) k' = none) : cacheGet c k' = none := by
  simp only [cacheGet, cacheSet, List.lookup] at h
  split at h
  · exact absurd h (by simp)
  · exact h

theorem fallbackLoop_success_meta (dist : ℚ → ℚ → ℚ → ℚ → ℚ)
    (client : AmapClient) (levels : List String) (ev : Bool) :
    ∀ (k : ℕ) (meta : FallbackMeta) (cache : Cache),
      (∃ r, (fallbackLoop dist client levels ev k meta cache).result = some r) →
      ∃ (kk : ℕ) (m : String),
        1 ≤ kk ∧ kk ≤ k ∧
        (fallbackLoop dist client levels ev k meta cache).meta =
          ⟨some (levels.length - kk), some m, some true⟩ ∧
        (m = "cache" ∨ m = "amap_place" ∨ m = "amap_geocode") := by
  intro k
  induction k with
  | zero =>
    intro meta cache h
    simp [fallbackLoop] at h
  | succ k ih =>
    intro meta cache
    simp only [fallbackLoop]
    split
    · intro _
      exact ⟨k + 1, "cache", by omega, by omega, rfl, Or.inl rfl⟩
    · intro h
      obtain ⟨kk, m, h1, h2, h3, h4⟩ := ih meta cache h
      exact ⟨kk, m, h1, by omega, h3, h4⟩
    · split
      · intro h
        simp only [logCall] at h ⊢
        obtain ⟨kk, m, h1, h2, h3, h4⟩ := ih meta _ h
        exact ⟨kk, m, h1, by omega, h3, h4⟩
      · split
        · split
          · intro h
            simp only [logCall] at h ⊢
            obtain ⟨kk, m, h1, h2, h3, h4⟩ :=
              ih { meta with validationPassed := some false } _ h
            exact ⟨kk, m, h1, by omega, h3, h4⟩
          · intro _
            exact ⟨k + 1, "amap_place", by omega, by omega, rfl, Or.inr (Or.inl rfl)⟩
        · split
          · intro h
            simp only [logCall] at h ⊢
            obtain ⟨kk, m, h1, h2, h3, h4⟩ := ih meta _ h
            exact ⟨kk, m, h1, by omega, h3, h4⟩
          · split
            · split
              · intro h
                simp only [logCall] at h ⊢
                obtain ⟨kk, m, h1, h2, h3, h4⟩ :=
                  ih { meta with validationPassed := some false } _ h
                exact ⟨kk, m, h1, by omega, h3, h4⟩
              · intro _
                exact ⟨k + 1, "amap_geocode", by omega, by omega, rfl,
                  Or.inr (Or.inr rfl)⟩
            · intro h
              simp only [logCall] at h ⊢
              obtain ⟨kk, m, h1, h2, h3, h4⟩ := ih meta _ h
              exact ⟨kk, m, h1, by omega, h3, h4⟩

theorem fallbackLoop_calls_uncached (dist : ℚ → ℚ → ℚ → ℚ → ℚ)
    (client : AmapClient) (levels : List String) (ev : Bool) :
    ∀ (k : ℕ) (meta : FallbackMeta) (cache : Cache) (e : Endpoint) (q : String),
      (e, q) ∈ (fallbackLoop dist client levels ev k meta cache).calls →
      cacheGet cache ("amap:" ++ q) = none := by
  intro k
  induction k with
  | zero =>
    intro meta cache e q h
    simp [fallbackLoop] at h
  | succ k ih =>
    intro meta cache e q
    simp only [fallbackLoop]
    split
    · intro h
      simp at h
    · intro h
      exact ih meta cache e q h
    · rename_i hmiss
      split
      · intro h
        simp only [logCall, List.mem_cons] at h
        rcases h with h | h
        · obtain ⟨he, rfl⟩ := Prod.mk.inj h
          exact hmiss
        · exact cacheGet_set_eq_none (ih meta _ e q h)
      · split
        · split
          · intro h
            simp only [logCall, List.mem_cons] at h
            rcases h with h | h
            · obtain ⟨he, rfl⟩ := Prod.mk.inj h
              exact hmiss
            · exact ih _ _ e q h
          · intro h
            simp only [List.mem_singleton] at h
            obtain ⟨he, rfl⟩ := Prod.mk.inj h
            exact hmiss
        · split
          · intro h
            simp only [logCall, List.mem_cons] at h
            rcases h with h | h | h
            · obtain ⟨he, rfl⟩ := Prod.mk.inj h
              exact hmiss
            · obtain ⟨he, rfl⟩ := Prod.mk.inj h
              exact hmiss
            · exact cacheGet_set_eq_none (ih meta _ e q h)
          · split
            · split
              · intro h
                simp only [logCall, List.mem_cons] at h
                rcases h with h | h | h
                · obtain ⟨he, rfl⟩ := Prod.mk.inj h
                  exact hmiss
                · obtain ⟨he, rfl⟩ := Prod.mk.inj h
                  exact hmiss
                · exact ih _ _ e q h
              · intro h
                simp only [List.mem_cons, List.mem_singleton] at h
                rcases h with h | h | h
                · obtain ⟨he, rfl⟩ := Prod.mk.inj h
                  exact hmiss
                · obtain ⟨he, rfl⟩ := Prod.mk.inj h
                  exact hmiss
                · simp at h
            · intro h
              simp only [logCall, List.mem_cons] at h
              rcases h with h | h | h
              · obtain ⟨he, rfl⟩ := Prod.mk.inj h
                exact hmiss
              · obtain ⟨he, rfl⟩ := Prod.mk.inj h
                exact hmiss
              · exact cacheGet_set_eq_none (ih meta _ e q h)

/-- C1: for every input address that splits into at least one level,
`geocode_with_fallback` either returns a result together with a `matchLevel`
in `[0, len(levels)-1]` and `validationPassed = true`, or returns no result
at all. -/
theorem geocode_fallback_result_range (dist : ℚ → ℚ → ℚ → ℚ → ℚ)
    (client : AmapClient) (address : String) (ev : Bool) (cache : Cache)
    (h : split_address_levels address ≠ []) :
    (geocode_with_fallback dist client address ev cache).result = none ∨
    ∃ r li,
      (geocode_with_fallback dist client address ev cache).result = some r ∧
      (geocode_with_fallback dist client address ev cache).meta.matchLevel =
        some li ∧
      li + 1 ≤ (split_address_levels address).length ∧
      (geocode_with_fallback dist client address ev
          cache).meta.validationPassed = some true := by
  have hne : (split_address_levels address).isEmpty = false := by
    cases he : split_address_levels address with
    | nil => exact absurd he h
    | cons a t => rfl
  simp only [geocode_with_fallback, hne, Bool.false_eq_true, if_false]
  cases hres : (fallbackLoop dist client (split_address_levels address) ev
      (split_address_levels address).length ⟨none, none, none⟩ cache).result with
  | none => exact Or.inl rfl
  | some r =>
    right
    obtain ⟨kk, m, h1, h2, h3, h4⟩ :=
      fallbackLoop_success_meta dist client (split_address_levels address) ev
        (split_address_levels address).length ⟨none, none, none⟩ cache ⟨r, hres⟩
    refine ⟨r, (split_address_levels address).length - kk, rfl, ?_, ?_, ?_⟩
    · rw [h3]
    · have hlen : 1 ≤ (split_address_levels address).length := by
        cases he : split_address_levels address with
        | nil => exact absurd he h
        | cons a t => simp
      omega
    · rw [h3]

/-- Witness for C1 at a concrete input. -/
theorem geocode_fallback_result_range_witness :
    split_address_levels "A" ≠ [] ∧
    ((geocode_with_fallback (constDist 0) emptyClient "A" true []).result =
        none ∨
      ∃ r li,
        (geocode_with_fallback (constDist 0) emptyClient "A" true []).result =
          some r ∧
        (geocode_with_fallback (constDist 0) emptyClient "A" true
            []).meta.matchLevel = some li ∧
        li + 1 ≤ (split_address_levels "A").length ∧
        (geocode_with_fallback (constDist 0) emptyClient "A" true
            []).meta.validationPassed = some true) :=
  ⟨by decide,
    geocode_fallback_result_range (constDist 0) emptyClient "A" true []
      (by decide)⟩

/-- C2 counterexample: with a warm cache produced by a first resolution of
`"A-B"`, resolving `"A-B"` again re-issues the network query `"AB"` (whose
candidate had failed validation and was therefore never cached), so the
second resolution does not make zero network calls and the engine queries
the `(provider, query)` pair `"amap:AB"` twice within the lifetime of the
populated cache. -/
theorem warm_cache_requery_cex :
    (Endpoint.place, "AB") ∈
      (geocode_with_fallback (constDist 0) c2Client "A-B" true []).calls ∧
    (geocode_with_fallback (constDist 0) c2Client "A-B" true
        (geocode_with_fallback (constDist 0) c2Client "A-B" true
          []).cache).calls = [(Endpoint.place, "AB")] := by
  exact ⟨by decide, by decide⟩

/-- C2 amended: the resolver never issues a network call for a query that
already has a cache entry (positive or negative) in the cache it was given —
every query appearing in the call trace was absent from the cache.  (The
original claim fails for queries whose candidate failed validation: those
are deliberately not cached and are re-issued on a second resolution.) -/
theorem no_call_for_cached_query (dist : ℚ → ℚ → ℚ → ℚ → ℚ)
    (client : AmapClient) (address : String) (ev : Bool) (cache : Cache)
    (e : Endpoint) (q : String)
    (h : (e, q) ∈ (geocode_with_fallback dist client address ev cache).calls) :
    cacheGet cache ("amap:" ++ q) = none := by
  simp only [geocode_with_fallback] at h
  split at h
  · simp at h
  · exact fallbackLoop_calls_uncached dist client
      (split_address_levels address) ev
      (split_address_levels address).length ⟨none, none, none⟩ cache e q h

/-- Witness for C2's amended theorem at a concrete input: the call for
`"AB"` is only made because `"amap:AB"` is absent from the starting cache. -/
theorem no_call_for_cached_query_witness :
    ((Endpoint.place, "AB") ∈
      (geocode_with_fallback (constDist 0) c2Client "A-B" true
        [("amap:Z", none)]).calls) ∧
    cacheGet [("amap:Z", none)] ("amap:" ++ "AB") = none :=
  ⟨by decide,
    no_call_for_cached_query (constDist 0) c2Client "A-B" true
      [("amap:Z", none)] Endpoint.place "AB" (by decide)⟩

/-- C3 counterexample: for `"A-B"`, the keyword search for the full query
`"AB"` returns a hit that fails validation while the structured-address
geocode endpoint would return a hit that passes validation; yet the resolver
never calls the geocode endpoint for `"AB"` (it falls back to the shorter
query instead, contrary to the claim) and ends with no result. -/
theorem validation_failure_skips_geocode_cex :
    validate_locality_match ["A", "B"] exRejected = false ∧
    validate_locality_match ["A", "B"] exAccepted = true ∧
    validate_coordinate_distance (constDist 0) ["A", "B"] exAccepted = true ∧
    c3Client.geocode "AB" "A" = CallResult.hits [exAccepted] ∧
    (geocode_with_fallback (constDist 0) c3Client "A-B" true []).result =
      none ∧
    (Endpoint.geo, "AB") ∉
      (geocode_with_fallback (constDist 0) c3Client "A-B" true []).calls := by
  decide

/-- C3 amended: when the keyword search at a level returns hits whose first
normalized candidate fails validation, nothing is cached for that query and
the resolver proceeds directly to the next (shorter) query with
`validationPassed` set to false — the structured-address geocode endpoint is
not consulted at that level (it is only reached when the keyword search
returns zero hits). -/
theorem validation_failure_falls_back_level (dist : ℚ → ℚ → ℚ → ℚ → ℚ)
    (client : AmapClient) (levels : List String) (k : ℕ)
    (meta : FallbackMeta) (cache : Cache) (r : GeoResult)
    (rest : List GeoResult)
    (hc : cacheGet cache
      ("amap:" ++ String.join (List.take (k + 1) levels)) = none)
    (hp : client.place_search (String.join (List.take (k + 1) levels))
      ((List.take (k + 1) levels).headD "") = CallResult.hits (r :: rest))
    (hv : (validate_locality_match levels r &&
      validate_coordinate_distance dist levels r) = false) :
    fallbackLoop dist client levels true (k + 1) meta cache =
      logCall (Endpoint.place, String.join (List.take (k + 1) levels))
        (fallbackLoop dist client levels true k
          { meta with validationPassed := some false } cache) := by
  conv_lhs => rw [fallbackLoop]
  simp only [hc, hp, hv, Bool.true_and, Bool.not_false, if_true]

/-- Witness for C3's amended theorem at a concrete input. -/
theorem validation_failure_falls_back_level_witness :
    fallbackLoop (constDist 0) c3Client ["A", "B"] true 2
        ⟨none, none, none⟩ [] =
      logCall (Endpoint.place, "AB")
        (fallbackLoop (constDist 0) c3Client ["A", "B"] true 1
          ⟨none, none, some false⟩ []) :=
  validation_failure_falls_back_level (constDist 0) c3Client ["A", "B"] 1
    ⟨none, none, none⟩ [] exRejected [] (by decide) (by decide) (by decide)

/-- C4 counterexample: a network failure (exception) during the keyword call
for `"A"` does not surface to the caller as an error — the resolver records
a negative cache entry for `"amap:A"` and returns normally with no result,
contrary to the claim that transient failures are never negative-cached. -/
theorem provider_error_caches_negative_cex :
    c4Client.place_search "A" "A" = CallResult.raise ∧
    (geocode_with_fallback (constDist 0) c4Client "A" true []).cache =
      [("amap:A", none)] ∧
    (geocode_with_fallback (constDist 0) c4Client "A" true []).result =
      none := by
  decide

/-- C4 amended: a provider exception during either provider call of a level
— the keyword `place_search` raising, or `place_search` returning zero hits
and the structured-address `geocode` raising — is caught inside the
resolver: it stores a negative cache entry for that level's query and
resolution continues with the next (shorter) query; the error never
propagates to the caller. -/
theorem provider_error_negative_cache_step (dist : ℚ → ℚ → ℚ → ℚ → ℚ)
    (client : AmapClient) (levels : List String) (ev : Bool) (k : ℕ)
    (meta : FallbackMeta) (cache : Cache)
    (hc : cacheGet cache
      ("amap:" ++ String.join (List.take (k + 1) levels)) = none) :
    (client.place_search (String.join (List.take (k + 1) levels))
        ((List.take (k + 1) levels).headD "") = CallResult.raise →
      fallbackLoop dist client levels ev (k + 1) meta cache =
        logCall (Endpoint.place, String.join (List.take (k + 1) levels))
          (fallbackLoop dist client levels ev k meta
            (cacheSet cache
              ("amap:" ++ String.join (List.take (k + 1) levels)) none))) ∧
    (client.place_search (String.join (List.take (k + 1) levels))
        ((List.take (k + 1) levels).headD "") = CallResult.hits [] →
      client.geocode (String.join (List.take (k + 1) levels))
        ((List.take (k + 1) levels).headD "") = CallResult.raise →
      fallbackLoop dist client levels ev (k + 1) meta cache =
        logCall (Endpoint.place, String.join (List.take (k + 1) levels))
          (logCall (Endpoint.geo, String.join (List.take (k + 1) levels))
            (fallbackLoop dist client levels ev k meta
              (cacheSet cache
                ("amap:" ++ String.join (List.take (k + 1) levels))
                none)))) := by
  constructor
  · intro hp
    conv_lhs => rw [fallbackLoop]
    simp only [hc, hp]
  · intro hp hg
    conv_lhs => rw [fallbackLoop]
    simp only [hc, hp, hg]

/-- Witness for C4's amended theorem at concrete inputs: the keyword
endpoint raising (`c4Client`), and the keyword endpoint returning zero hits
with the geocode endpoint raising (`c4GeoClient`); both record the negative
entry `"amap:A"` and continue. -/
theorem provider_error_negative_cache_step_witness :
    (fallbackLoop (constDist 0) c4Client ["A"] true 1 ⟨none, none, none⟩ [] =
      logCall (Endpoint.place, "A")
        (fallbackLoop (constDist 0) c4Client ["A"] true 0 ⟨none, none, none⟩
          (cacheSet [] "amap:A" none))) ∧
    (fallbackLoop (constDist 0) c4GeoClient ["A"] true 1 ⟨none, none, none⟩
        [] =
      logCall (Endpoint.place, "A") (logCall (Endpoint.geo, "A")
        (fallbackLoop (constDist 0) c4GeoClient ["A"] true 0
          ⟨none, none, none⟩ (cacheSet [] "amap:A" none)))) :=
  ⟨(provider_error_negative_cache_step (constDist 0) c4Client ["A"] true 0
      ⟨none, none, none⟩ [] (by decide)).1 (by decide),
    (provider_error_negative_cache_step (constDist 0) c4GeoClient ["A"] true 0
      ⟨none, none, none⟩ [] (by decide)).2 (by decide) (by decide)⟩

/-- C5 counterexample: in the spec's end-to-end scenario (full five-level
query returns a valid hit via the keyword place search, 2 km from the
reference point), the resolver does return the hit with `matchLevel = 0`,
but the recorded `matchMethod` is the string `"amap_place"` — not
`"place_search"`, and not any of the three values the claim allows. -/
theorem matchMethod_literal_cex :
    (geocode_with_fallback (constDist 2) c5Client
        "浙江省-杭州市-上城区-孤山路25号-杭州博物馆" true []).result =
      some c5Hit ∧
    (geocode_with_fallback (constDist 2) c5Client
        "浙江省-杭州市-上城区-孤山路25号-杭州博物馆" true
        []).meta.matchLevel = some 0 ∧
    (geocode_with_fallback (constDist 2) c5Client
        "浙江省-杭州市-上城区-孤山路25号-杭州博物馆" true
        []).meta.matchMethod = some "amap_place" ∧
    (geocode_with_fallback (constDist 2) c5Client
        "浙江省-杭州市-上城区-孤山路25号-杭州博物馆" true
        []).meta.matchMethod ≠ some "place_search" ∧
    (geocode_with_fallback (constDist 2) c5Client
        "浙江省-杭州市-上城区-孤山路25号-杭州博物馆" true
        []).meta.matchMethod ≠ some "geocode" ∧
    (geocode_with_fallback (constDist 2) c5Client
        "浙江省-杭州市-上城区-孤山路25号-杭州博物馆" true
        []).meta.matchMethod ≠ some "cache" := by
  decide

/-- C5 amended: whenever the resolver returns a result, the recorded
`matchMethod` is exactly one of the code's three strings `"cache"`,
`"amap_place"` (keyword place search) or `"amap_geocode"`
(structured-address geocode); in the spec's five-level scenario the result
comes back with `matchLevel = 0` and `matchMethod = "amap_place"`. -/
theorem matchMethod_values (dist : ℚ → ℚ → ℚ → ℚ → ℚ) (client : AmapClient)
    (address : String) (ev : Bool) (cache : Cache) (r : GeoResult)
    (h : (geocode_with_fallback dist client address ev cache).result =
      some r) :
    (geocode_with_fallback dist client address ev cache).meta.matchMethod =
        some "cache" ∨
    (geocode_with_fallback dist client address ev cache).meta.matchMethod =
        some "amap_place" ∨
    (geocode_with_fallback dist client address ev cache).meta.matchMethod =
        some "amap_geocode" := by
  simp only [geocode_with_fallback] at h ⊢
  split at h
  · simp at h
  · rename_i hne
    rw [if_neg hne]
    obtain ⟨kk, m, h1, h2, h3, h4⟩ :=
      fallbackLoop_success_meta dist client (split_address_levels address) ev
        (split_address_levels address).length ⟨none, none, none⟩ cache ⟨r, h⟩
    rw [h3]
    rcases h4 with rfl | rfl | rfl
    · exact Or.inl rfl
    · exact Or.inr (Or.inl rfl)
    · exact Or.inr (Or.inr rfl)

/-- Witness for C5's amended theorem: the spec's end-to-end scenario. -/
theorem matchMethod_values_witness :
    ((geocode_with_fallback (constDist 2) c5Client
        "浙江省-杭州市-上城区-孤山路25号-杭州博物馆" true []).result =
      some c5Hit) ∧
    ((geocode_with_fallback (constDist 2) c5Client
        "浙江省-杭州市-上城区-孤山路25号-杭州博物馆" true
        []).meta.matchMethod = some "cache" ∨
      (geocode_with_fallback (constDist 2) c5Client
        "浙江省-杭州市-上城区-孤山路25号-杭州博物馆" true
        []).meta.matchMethod = some "amap_place" ∨
      (geocode_with_fallback (constDist 2) c5Client
        "浙江省-杭州市-上城区-孤山路25号-杭州博物馆" true
        []).meta.matchMethod = some "amap_geocode") :=
  ⟨by decide,
    matchMethod_values (constDist 2) c5Client
      "浙江省-杭州市-上城区-孤山路25号-杭州博物馆" true [] c5Hit (by decide)⟩

/-- C6: for a candidate with truthy coordinates and a query city present in
`CITY_CENTERS`, the distance check accepts exactly when the distance
returned by the (haversine) distance function from the city's reference
point to the candidate is at most the threshold selected by the number of
query levels — 20 km for ≥4 levels, 50 km for 3, 150 km for 2, 800 km
otherwise — with an inclusive boundary.  The source's float
`haversine_distance` (Earth radius 6371 km) is the `dist` argument. -/
theorem distance_check_threshold_iff (dist : ℚ → ℚ → ℚ → ℚ → ℚ)
    (query_levels : List String) (result : GeoResult) (lat lon : ℚ)
    (query_city : String) (city_lat city_lon : ℚ)
    (hlat : result.lat = some lat) (hlat0 : lat ≠ 0)
    (hlon : result.lon = some lon) (hlon0 : lon ≠ 0)
    (hcity : query_levels.get? 1 = some query_city)
    (hcity0 : query_city ≠ "")
    (hlook : List.lookup query_city CITY_CENTERS = some (city_lat, city_lon)) :
    (validate_coordinate_distance dist query_levels result = true ↔
      dist city_lat city_lon lat lon ≤
        (if 4 ≤ query_levels.length then 20
         else if query_levels.length = 3 then 50
         else if query_levels.length = 2 then 150 else 800)) := by
  have hfalsy : (optFalsy (some lat) ∨ optFalsy (some lon)) = False := by
    simp [optFalsy, hlat0, hlon0]
  have hthr : distanceThreshold query_levels.length =
      (if 4 ≤ query_levels.length then (20 : ℚ)
       else if query_levels.length = 3 then 50
       else if query_levels.length = 2 then 150 else 800) := by
    unfold distanceThreshold MAX_DISTANCE_street MAX_DISTANCE_district
      MAX_DISTANCE_city MAX_DISTANCE_province
    split_ifs <;> first | rfl | omega
  simp only [validate_coordinate_distance, hlat, hlon, hfalsy, if_false,
    hcity, hlook, Option.getD_some, if_neg hcity0, hthr]
  split_ifs <;>
    first
      | (simp only [Bool.false_eq_true, false_iff, not_le]; linarith)
      | (simp only [true_iff]; linarith)

/-- Witness for C6: with a two-level query against the 北京市 reference
point, a constant distance of exactly 150 km passes the check and a constant
distance of 150.01 km fails it. -/
theorem distance_check_threshold_iff_witness :
    validate_coordinate_distance (constDist 150) ["北", "北京市"]
      ⟨some 1, some 1, "", ""⟩ = true ∧
    validate_coordinate_distance (constDist (15001 / 100)) ["北", "北京市"]
      ⟨some 1, some 1, "", ""⟩ = false := by
  constructor
  · exact (distance_check_threshold_iff (constDist 150) ["北", "北京市"]
      ⟨some 1, some 1, "", ""⟩ 1 1 "北京市" 39.9042 116.4074 rfl
      (by norm_num) rfl (by norm_num) rfl (by decide) rfl).mpr
      (by norm_num [constDist])
  · have h := distance_check_threshold_iff (constDist (15001 / 100))
      ["北", "北京市"] ⟨some 1, some 1, "", ""⟩ 1 1 "北京市" 39.9042 116.4074
      rfl (by norm_num) rfl (by norm_num) rfl (by decide) rfl
    cases hb : validate_coordinate_distance (constDist (15001 / 100))
        ["北", "北京市"] ⟨some 1, some 1, "", ""⟩ with
    | false => rfl
    | true =>
      have hle := h.mp hb
      norm_num [constDist] at hle

/-- C7 counterexample: for the query `["浙江省", "杭州市"]` and a result
whose `display_name` is absent (modelled as `""`) but whose `locality` is
present, the locality check fails — an absent `displayName` is grounds for
failure of the city test, contradicting the claim that absent result fields
never cause a failure.  (Conversely, with an absent `locality` the check
passes even when the district appears nowhere.) -/
theorem locality_missing_displayName_cex :
    (GeoResult.mk none none "" "随便").display_name = "" ∧
    validate_locality_match ["浙江省", "杭州市"]
      (GeoResult.mk none none "" "随便") = false ∧
    validate_locality_match ["浙江省", "杭州市", "上城区"]
      (GeoResult.mk none none "nothing" "") = true := by
  decide

/-- C7 amended: the whole check is guarded by the presence of `locality` —
with an absent/empty `locality` it always passes; with `locality` present it
fails exactly when either the query district (level 3) is non-empty and
occurs in neither `locality` nor `displayName`, or the query city (level 2)
is non-empty, does not occur in `displayName`, and its base with the
administrative suffixes `市`/`地区`/`自治州` stripped is non-empty and does
not occur in `displayName` either (an absent `displayName` behaves as an
empty string containing nothing). -/
theorem locality_match_characterization (query_levels : List String)
    (result : GeoResult) :
    validate_locality_match query_levels result = false ↔
      (result.locality ≠ "" ∧
        ((query_levels.getD 2 "" ≠ "" ∧
          pyIn (query_levels.getD 2 "") result.locality = false ∧
          pyIn (query_levels.getD 2 "") result.display_name = false) ∨
         (query_levels.getD 1 "" ≠ "" ∧
          pyIn (query_levels.getD 1 "") result.display_name = false ∧
          pyReplaceEmpty (pyReplaceEmpty
            (pyReplaceEmpty (query_levels.getD 1 "") "市") "地区")
            "自治州" ≠ "" ∧
          pyIn (pyReplaceEmpty (pyReplaceEmpty
            (pyReplaceEmpty (query_levels.getD 1 "") "市") "地区")
            "自治州") result.display_name = false))) := by
  simp only [validate_locality_match]
  split_ifs with h1 h2 h3 h4 <;>
    simp_all [Bool.not_eq_true]

/-- C8: with resume enabled, the done-set reconstructed from the progress
log determines exactly which indices reach the unit of work: an index is
invoked iff it is in range and not recorded as done; a recorded index is
skipped without running the worker; and for the spec's example (indices
`{0,1,3}` recorded out of 5 items) exactly `{2,4}` are invoked. -/
theorem resume_invokes_complement :
    (∀ (lines : List (Option ℤ)) (total i : ℕ),
      i ∈ invoked_indices true (load_done_batches lines) total ↔
        (i < total ∧ (i : ℤ) ∉ load_done_batches lines)) ∧
    (∀ (α : Type) (done : Finset ℤ) (f : ℕ → ℕ → Except String α)
        (retries total i : ℕ), i < total → (i : ℤ) ∈ done →
      (run_batches_records true done f retries total).get? i =
        some BatchRecord.skipped) ∧
    (∀ (α : Type) (done : Finset ℤ) (f : ℕ → ℕ → Except String α)
        (retries total i : ℕ), i < total → (i : ℤ) ∉ done →
      (run_batches_records true done f retries total).get? i =
        some (run_worker (f i) retries)) ∧
    invoked_indices true (load_done_batches [some 0, some 1, some 3]) 5 =
      [2, 4] := by
  refine ⟨?_, ?_, ?_, by decide⟩
  · intro lines total i
    simp [invoked_indices, List.mem_filter, List.mem_range]
  · intro α done f retries total i hi hmem
    simp only [run_batches_records, List.get?_map, List.get?_range hi,
      Option.map_some]
    simp [hmem]
  · intro α done f retries total i hi hmem
    simp only [run_batches_records, List.get?_map, List.get?_range hi,
      Option.map_some]
    simp [hmem]

/-- If every attempt of the unit of work fails, the retry loop ends with a
failed record carrying the error of the final attempt. -/
theorem worker_attempts_all_error {α : Type} (f : ℕ → Except String α) :
    ∀ (remaining attempt : ℕ), 1 ≤ remaining →
      (∀ a, ∃ e, f a = Except.error e) →
      ∃ e, worker_attempts f remaining attempt = BatchRecord.failed e ∧
        f (attempt + remaining - 1) = Except.error e := by
  intro remaining
  induction remaining with
  | zero => intro attempt h; omega
  | succ r ih =>
    intro attempt _ hfail
    obtain ⟨e, he⟩ := hfail attempt
    by_cases hr : r = 0
    · subst hr
      refine ⟨e, ?_, ?_⟩
      · simp [worker_attempts, he]
      · simpa using he
    · obtain ⟨e', h1, h2⟩ := ih (attempt + 1) (by omega) hfail
      refine ⟨e', ?_, ?_⟩
      · simp [worker_attempts, he, hr, h1]
      · have : attempt + 1 + r - 1 = attempt + (r + 1) - 1 := by omega
        rwa [this] at h2

/-- Every line of the prompts file bumps exactly one of the three counters,
and `total` is untouched by the loop. -/
theorem extraction_counts_fold {α : Type} (se : Bool) :
    ∀ (lines : List (LineParse α)) (s : ExtractionSummary),
      ((lines.foldl (extraction_step se) s).success +
        (lines.foldl (extraction_step se) s).skipped +
        (lines.foldl (extraction_step se) s).failed =
        s.success + s.skipped + s.failed + lines.length) ∧
      (lines.foldl (extraction_step se) s).total = s.total := by
  intro lines
  induction lines with
  | nil => intro s; simp
  | cons l t ih =>
    intro s
    simp only [List.foldl_cons, List.length_cons]
    obtain ⟨h1, h2⟩ := ih (extraction_step se s l)
    constructor
    · rw [h1]
      cases l with
      | invalid => simp [extraction_step]; omega
      | item already llm =>
        simp only [extraction_step]
        split
        · simp
          omega
        · cases llm <;> simp <;> omega
    · rw [h2]
      cases l with
      | invalid => rfl
      | item already llm =>
        simp only [extraction_step]
        split
        · rfl
        · cases llm <;> rfl

/-- C9: when one work item's attempts all fail, the batch run records a
failed entry for that item carrying the final attempt's error while still
producing a record for every item (one failure never aborts the batch), and
every extraction run ends with summary counters that partition the input
lines into success/skipped/failed with `total` equal to the number of
lines. -/
theorem retry_exhaustion_and_summary (α : Type) (done : Finset ℤ)
    (f : ℕ → ℕ → Except String α) (retries total i : ℕ)
    (hi : i < total) (hr : 1 ≤ retries)
    (hfail : ∀ a, ∃ e, f i a = Except.error e)
    (skip_existing : Bool) (lines : List (LineParse α)) :
    (∃ e, (run_batches_records false done f retries total).get? i =
        some (BatchRecord.failed e) ∧ f i retries = Except.error e) ∧
    (run_batches_records false done f retries total).length = total ∧
    ((run_extraction_summary skip_existing lines).success +
      (run_extraction_summary skip_existing lines).skipped +
      (run_extraction_summary skip_existing lines).failed =
      (run_extraction_summary skip_existing lines).total) ∧
    (run_extraction_summary skip_existing lines).total = lines.length := by
  refine ⟨?_, ?_, ?_, ?_⟩
  · obtain ⟨e, h1, h2⟩ := worker_attempts_all_error (f i) retries 1 hr hfail
    refine ⟨e, ?_, ?_⟩
    · simp only [run_batches_records, Bool.false_and, Bool.false_eq_true,
        if_false, List.get?_map, List.get?_range hi, Option.map_some]
      simp [run_worker, h1]
    · have : 1 + retries - 1 = retries := by omega
      rwa [this] at h2
  · simp [run_batches_records]
  · obtain ⟨h1, h2⟩ :=
      extraction_counts_fold skip_existing lines ⟨lines.length, 0, 0, 0⟩
    simp only [run_extraction_summary]
    rw [h1, h2]
    simp
  · obtain ⟨h1, h2⟩ :=
      extraction_counts_fold skip_existing lines ⟨lines.length, 0, 0, 0⟩
    simp only [run_extraction_summary]
    rw [h2]

/-- Witness for C9 at a concrete input: item 1 of 3 always fails, the other
items and an example extraction run are unaffected. -/
theorem retry_exhaustion_and_summary_witness :
    (∃ e, (run_batches_records false ∅
        (fun i _ => if i = 1 then Except.error "boom" else Except.ok 0)
        2 3).get? 1 = some (BatchRecord.failed e) ∧
      (fun (i : ℕ) (_ : ℕ) =>
        if i = 1 then Except.error "boom" else Except.ok 0) 1 2 =
        Except.error e) ∧
    (run_batches_records false ∅
      (fun i _ => if i = 1 then Except.error "boom" else Except.ok 0)
      2 3).length = 3 ∧
    ((run_extraction_summary true
        [LineParse.invalid, LineParse.item true none,
          LineParse.item false (some 0)]).success +
      (run_extraction_summary true
        [LineParse.invalid, LineParse.item true none,
          LineParse.item false (some 0)]).skipped +
      (run_extraction_summary true
        [LineParse.invalid, LineParse.item true none,
          LineParse.item false (some 0)]).failed =
      (run_extraction_summary true
        [LineParse.invalid, LineParse.item true none,
          LineParse.item false (some 0)]).total) ∧
    (run_extraction_summary true
      [LineParse.invalid, LineParse.item true none,
        LineParse.item false (some 0)]).total =
      [LineParse.invalid, LineParse.item true none,
        LineParse.item false (some 0)].length :=
  retry_exhaustion_and_summary ℕ ∅
    (fun i _ => if i = 1 then Except.error "boom" else Except.ok 0)
    2 3 1 (by decide) (by decide) (fun a => ⟨"boom", rfl⟩) true
    [LineParse.invalid, LineParse.item true none, LineParse.item false (some 0)]

/-- C10: if a candidate's latitude or longitude is absent (`None`) or equal
to 0 (Python-falsy), the distance check passes without computing any
distance, whatever the distance function, the query levels and the other
coordinate are — a point on the equator or prime meridian always passes. -/
theorem falsy_coordinate_passes_distance (dist : ℚ → ℚ → ℚ → ℚ → ℚ)
    (query_levels : List String) (result : GeoResult)
    (h : result.lat = none ∨ result.lat = some 0 ∨ result.lon = none ∨
      result.lon = some 0) :
    validate_coordinate_distance dist query_levels result = true := by
  have hf : optFalsy result.lat ∨ optFalsy result.lon := by
    rcases h with h | h | h | h <;> simp [optFalsy, h]
  unfold validate_coordinate_distance
  rw [if_pos hf]

/-- Witness for C10: an equator point (latitude 0) with an astronomically
large constant distance from the 北京市 reference point still passes. -/
theorem falsy_coordinate_passes_distance_witness :
    validate_coordinate_distance (constDist 99999) ["北", "北京市"]
      ⟨some 0, some 50, "", ""⟩ = true :=
  falsy_coordinate_passes_distance (constDist 99999) ["北", "北京市"]
    ⟨some 0, some 50, "", ""⟩ (Or.inr (Or.inl rfl))
